import Mathlib

/-!
Verification development for the image acquisition and caching subsystem
(`app/core/assets.py`, `ProfessionalAssetManager`) of the HST marketing
website, together with the configuration field it is claimed to consume
(`app/core/config.py`, `Settings.unsplash_access_key`).

The Python code is shallowly embedded: network and clock effects are
represented by an explicit environment record (`Env`) holding the outcome
each external call would produce, the on-disk JSON cache is a partial map
from cache-key strings to records, and every method of the manager becomes
a pure Lean function on these.  Exceptions that the Python code catches
locally are modelled by the corresponding "failure outcome" fields of the
environment (`none` responses, error flags).
-/

namespace HstAssets

/-! ### Decimal rendering of naturals

Python's f-strings render integers in decimal (`str(width)`); Lean's
`Nat.repr` does the same.  To reason about the strings built by the code we
relate `Nat.repr` to a fuel-free recursion `natDecAux` and prove the facts
needed later: every character is a decimal digit, and the rendering is
injective (via the evaluation map `decVal`). -/

def natDecAux (n : Nat) (ds : List Char) : List Char :=
  if h : n / 10 = 0 then Nat.digitChar (n % 10) :: ds
  else natDecAux (n / 10) (Nat.digitChar (n % 10) :: ds)
termination_by n
decreasing_by
  exact Nat.div_lt_self (Nat.pos_of_ne_zero fun hn => h (by rw [hn])) (by decide)

theorem natDecAux_base (n : Nat) (ds : List Char) (h : n / 10 = 0) :
    natDecAux n ds = Nat.digitChar (n % 10) :: ds := by
  rw [natDecAux]; simp [h]

theorem natDecAux_step (n : Nat) (ds : List Char) (h : ¬ n / 10 = 0) :
    natDecAux n ds = natDecAux (n / 10) (Nat.digitChar (n % 10) :: ds) := by
  conv_lhs => rw [natDecAux]
  simp [h]

theorem toDigitsCore_eq_natDecAux (f : Nat) : ∀ (n : Nat) (ds : List Char), n < f →
    Nat.toDigitsCore 10 f n ds = natDecAux n ds := by
  induction f with
  | zero => intro n ds h; omega
  | succ f ih =>
    intro n ds h
    by_cases h0 : n / 10 = 0
    · rw [natDecAux_base n ds h0]
      simp [Nat.toDigitsCore, h0]
    · have hpos : 0 < n := Nat.pos_of_ne_zero fun hn => h0 (by rw [hn])
      have hlt : n / 10 < n := Nat.div_lt_self hpos (by decide)
      rw [natDecAux_step n ds h0]
      simp only [Nat.toDigitsCore, h0, if_false]
      exact ih (n / 10) _ (by omega)

theorem repr_data_eq (n : Nat) : (Nat.repr n).data = natDecAux n [] := by
  show (List.asString (Nat.toDigitsCore 10 (n + 1) n [])).data = natDecAux n []
  rw [toDigitsCore_eq_natDecAux (n + 1) n [] (Nat.lt_succ_self n)]
  rfl

theorem digitChar_isDigit (k : Nat) (hk : k < 10) : (Nat.digitChar k).isDigit = true := by
  interval_cases k <;> decide

theorem digitChar_toNat (k : Nat) (hk : k < 10) : (Nat.digitChar k).toNat = 48 + k := by
  interval_cases k <;> decide

theorem mem_natDecAux (n : Nat) : ∀ (ds : List Char), ∀ c ∈ natDecAux n ds,
    c.isDigit = true ∨ c ∈ ds := by
  induction n using Nat.strong_induction_on with
  | _ n ih =>
    intro ds c hc
    by_cases h0 : n / 10 = 0
    · rw [natDecAux_base n ds h0] at hc
      rcases List.mem_cons.mp hc with h | h
      · exact Or.inl (h ▸ digitChar_isDigit _ (Nat.mod_lt _ (by decide)))
      · exact Or.inr h
    · rw [natDecAux_step n ds h0] at hc
      have hpos : 0 < n := Nat.pos_of_ne_zero fun hn => h0 (by rw [hn])
      have hlt : n / 10 < n := Nat.div_lt_self hpos (by decide)
      rcases ih (n / 10) hlt _ c hc with h | h
      · exact Or.inl h
      · rcases List.mem_cons.mp h with h | h
        · exact Or.inl (h ▸ digitChar_isDigit _ (Nat.mod_lt _ (by decide)))
        · exact Or.inr h

theorem natDecAux_append (n : Nat) : ∀ ds : List Char,
    natDecAux n ds = natDecAux n [] ++ ds := by
  induction n using Nat.strong_induction_on with
  | _ n ih =>
    intro ds
    by_cases h0 : n / 10 = 0
    · rw [natDecAux_base n ds h0, natDecAux_base n [] h0]
      simp
    · have hpos : 0 < n := Nat.pos_of_ne_zero fun hn => h0 (by rw [hn])
      have hlt : n / 10 < n := Nat.div_lt_self hpos (by decide)
      rw [natDecAux_step n ds h0, natDecAux_step n [] h0]
      rw [ih (n / 10) hlt (Nat.digitChar (n % 10) :: ds),
          ih (n / 10) hlt [Nat.digitChar (n % 10)]]
      simp

def decVal (l : List Char) : Nat :=
  l.foldl (fun a c => 10 * a + (c.toNat - 48)) 0

theorem decVal_append_singleton (xs : List Char) (c : Char) :
    decVal (xs ++ [c]) = 10 * decVal xs + (c.toNat - 48) := by
  simp [decVal, List.foldl_append]

theorem decVal_natDecAux (n : Nat) : decVal (natDecAux n []) = n := by
  induction n using Nat.strong_induction_on with
  | _ n ih =>
    by_cases h0 : n / 10 = 0
    · have hn : n < 10 := by omega
      rw [natDecAux_base n [] h0]
      have : decVal [Nat.digitChar (n % 10)] = (Nat.digitChar (n % 10)).toNat - 48 := by
        simp [decVal]
      rw [this, digitChar_toNat _ (Nat.mod_lt _ (by decide))]
      omega
    · have hpos : 0 < n := Nat.pos_of_ne_zero fun hn => h0 (by rw [hn])
      have hlt : n / 10 < n := Nat.div_lt_self hpos (by decide)
      rw [natDecAux_step n [] h0]
      rw [natDecAux_append, decVal_append_singleton, ih (n / 10) hlt,
          digitChar_toNat _ (Nat.mod_lt _ (by decide))]
      omega

theorem decVal_repr_data (n : Nat) : decVal (Nat.repr n).data = n := by
  rw [repr_data_eq]; exact decVal_natDecAux n

theorem repr_data_injective (n m : Nat) (h : (Nat.repr n).data = (Nat.repr m).data) :
    n = m := by
  have := congrArg decVal h
  rwa [decVal_repr_data, decVal_repr_data] at this

theorem underscore_not_mem_repr (n : Nat) : '_' ∉ (Nat.repr n).data := by
  intro h
  rw [repr_data_eq] at h
  rcases mem_natDecAux n [] '_' h with h | h
  · exact absurd h (by decide)
  · exact absurd h (List.not_mem_nil _)

/-! ### Splitting a key string at its underscores

The cache-key input is built as `f"{category}_{width}_{height}"`
(`_generate_cache_key`).  To show that this construction collides only on
exact triple match we exhibit an explicit parser that recovers the three
components: split the reversed character list at its first two underscores
(equivalently, the original list at its last two). -/

def splitUnd : List Char → Option (List Char × List Char)
  | [] => none
  | c :: cs =>
    if c = '_' then some ([], cs)
    else
      match splitUnd cs with
      | some (a, b) => some (c :: a, b)
      | none => none

theorem splitUnd_append (B R : List Char) (hB : '_' ∉ B) :
    splitUnd (B ++ '_' :: R) = some (B, R) := by
  induction B with
  | nil => simp [splitUnd]
  | cons c cs ih =>
    have hc : ¬ c = '_' := fun h => hB (h ▸ List.mem_cons_self c cs)
    have hcs : '_' ∉ cs := fun h => hB (List.mem_cons_of_mem c h)
    simp [splitUnd, hc, ih hcs]

def parseKeyData (l : List Char) : Option (List Char × List Char × List Char) :=
  match splitUnd l.reverse with
  | none => none
  | some (hrev, r1) =>
    match splitUnd r1 with
    | none => none
    | some (wrev, crev) => some (crev.reverse, wrev.reverse, hrev.reverse)

theorem parseKeyData_eq (A B C : List Char) (hB : '_' ∉ B) (hC : '_' ∉ C) :
    parseKeyData (A ++ '_' :: (B ++ '_' :: C)) = some (A, B, C) := by
  have hrev : (A ++ '_' :: (B ++ '_' :: C)).reverse
      = C.reverse ++ '_' :: (B.reverse ++ '_' :: A.reverse) := by
    simp [List.reverse_append]
  have hCrev : '_' ∉ C.reverse := fun h => hC (List.mem_reverse.mp h)
  have hBrev : '_' ∉ B.reverse := fun h => hB (List.mem_reverse.mp h)
  rw [parseKeyData, hrev, splitUnd_append C.reverse _ hCrev]
  simp [splitUnd_append B.reverse _ hBrev]

/-! ### Data model

A cache record is the JSON object written by `_cache_image_url`:
`{'url': ..., 'timestamp': datetime.now().isoformat()}`.  Timestamps are
modelled as integers (seconds); `timedelta(hours=24)` becomes
`24 * 60 * 60` seconds, and the comparison `datetime.now() - cached_time <
self.cache_duration` becomes integer subtraction and `<`. -/

structure CacheRecord where
  url : String
  timestamp : Int

/-- The cache directory: one record per cache-key file, `none` when
`cache_file.exists()` is false. -/
abbrev Cache := String → Option CacheRecord

/-- A photo object of the Unsplash search response; only `photo['urls']['raw']`
is consumed by `_fetch_from_unsplash`. -/
structure Photo where
  raw : String

/-- Outcome of the Unsplash search HTTP request: the response status and the
`results` array of the JSON body (an absent or empty `data.get("results")`
is the empty list). -/
structure SearchResponse where
  status : Nat
  results : List Photo

/-- The external world one `get_image` call runs against: the credential the
manager was initialised with, the outcome each network call would produce
(`none` models an exception/timeout, which the code catches), whether the
cache file read/write raises (caught by `_get_cached_image` /
`_cache_image_url`), Python's builtin string `hash`, and the current clock
value used for `datetime.now()`. -/
structure Env where
  py_hash : String → Int
  unsplash_access_key : String
  search_response : Option SearchResponse
  head_status : Option Nat
  cache_read_fails : Bool
  cache_write_fails : Bool
  now : Int

/-- Python truthiness of an `Optional[str]`: `None` and `""` are falsy.
Used for `if not self.unsplash_access_key`, `if cached_url`, `if image_url`. -/
def truthy : Option String → Bool
  | none => false
  | some s => s != ""

/-! ### The embedded `ProfessionalAssetManager` -/

/-- The `business_categories` dict of `ProfessionalAssetManager.__init__`. -/
def business_categories : List (String × List String) :=
  [("business-team", ["business", "team", "office", "professional"]),
   ("technology-consulting", ["technology", "consulting", "computer", "business"]),
   ("business-strategy", ["strategy", "planning", "business", "meeting"]),
   ("digital-transformation", ["digital", "technology", "innovation", "business"]),
   ("professional-team", ["team", "business", "professional", "office"]),
   ("modern-office", ["office", "workspace", "modern", "business"]),
   ("team-meeting", ["meeting", "business", "team", "conference"]),
   ("workspace", ["workspace", "office", "desk", "computer"]),
   ("professional-woman", ["business", "woman", "professional", "portrait"]),
   ("professional-man", ["business", "man", "professional", "portrait"]),
   ("business-woman", ["business", "woman", "suit", "professional"]),
   ("business-consulting", ["consulting", "business", "meeting", "professional"]),
   ("technology-stack", ["technology", "computer", "software", "coding"]),
   ("cloud-computing", ["cloud", "technology", "server", "computing"]),
   ("data-analytics", ["data", "analytics", "chart", "business"]),
   ("cybersecurity", ["security", "technology", "protection", "cyber"]),
   ("mobile-development", ["mobile", "app", "development", "technology"]),
   ("ai-machine-learning", ["artificial intelligence", "machine learning", "technology", "future"]),
   ("business-meeting", ["meeting", "business", "conference", "professional"]),
   ("modern-office-space", ["office", "modern", "workspace", "interior"]),
   ("business-insights", ["business", "insights", "data", "analytics"]),
   ("technology-trends", ["technology", "trends", "innovation", "future"]),
   ("business-growth", ["growth", "business", "success", "chart"]),
   ("digital-innovation", ["digital", "innovation", "technology", "future"])]

/-- Python `dict.get(k)` on an association list (keys in the registry are
distinct, so association-list lookup agrees with the dict). -/
def dictGet : List (String × List String) → String → Option (List String)
  | [], _ => none
  | (k0, v) :: rest, k => if k = k0 then some v else dictGet rest k

/-- The expression `self.business_categories.get(category, [category])` that
both `_fetch_from_unsplash` and `_fetch_fallback_image` use to obtain the
keyword list. -/
def get_keywords (category : String) : List String :=
  (dictGet business_categories category).getD [category]

/-- The `self.cache_duration = timedelta(hours=24)` constant, in seconds. -/
def cache_duration : Int := 24 * 60 * 60

/-- `_generate_cache_key`'s digest input `f"{category}_{width}_{height}"`. -/
def key_string (category : String) (width height : Nat) : String :=
  category ++ "_" ++ Nat.repr width ++ "_" ++ Nat.repr height

/-- `_generate_cache_key`: `hashlib.md5(key_string.encode()).hexdigest()`.
The MD5 digest is an external pure function of the input string, passed in
as `md5hex`. -/
def generate_cache_key (md5hex : String → String) (category : String)
    (width height : Nat) : String :=
  md5hex (key_string category width height)

/-- `_get_cached_image`: read the record file for `cache_key` and return its
URL when the record is younger than `cache_duration`; a missing file, a
stale record, or a read/parse exception (`cache_read_fails`) all yield
`None`. -/
def get_cached_image (env : Env) (cache : Cache) (cache_key : String) : Option String :=
  if env.cache_read_fails then none
  else
    match cache cache_key with
    | none => none
    | some record =>
      if env.now - record.timestamp < cache_duration then some record.url else none

/-- `_cache_image_url`: write `{url, timestamp: now}` under `cache_key`,
overwriting any previous record; a write exception (`cache_write_fails`) is
caught and leaves the cache unchanged. -/
def cache_image_url (env : Env) (cache : Cache) (cache_key url : String) : Cache :=
  if env.cache_write_fails then cache
  else fun k => if k = cache_key then some { url := url, timestamp := env.now } else cache k

/-- `_fetch_from_unsplash`.  Returns the composed URL (or `none`) together
with the number of network requests issued: the guard on a missing or
placeholder-valued access key short-circuits before the HTTP request, every
other path issues exactly the one search request.  The keyword query string
is consumed by the search service, whose reply is the `search_response`
oracle of the environment. -/
def fetch_from_unsplash (env : Env) (category : String) (width height : Nat) :
    Option String × Nat :=
  if env.unsplash_access_key = "" ∨ env.unsplash_access_key = "YOUR_UNSPLASH_ACCESS_KEY" then
    (none, 0)
  else
    match env.search_response with
    | none => (none, 1)
    | some resp =>
      if resp.status = 200 then
        match resp.results with
        | [] => (none, 1)
        | photo :: _ =>
          (some (photo.raw ++ "&w=" ++ Nat.repr width ++ "&h=" ++ Nat.repr height
                 ++ "&fit=crop&crop=center"), 1)
      else (none, 1)

/-- Python `keyword.replace(" ", "-")`: for the single-character pattern
this is exactly the character map sending each space to a hyphen. -/
def replace_space_hyphen (s : String) : String :=
  ⟨s.data.map fun c => if c = ' ' then '-' else c⟩

/-- The Lorem Picsum URL `f"https://picsum.photos/{width}/{height}?random={hash(category) % 1000}"`
built by `_fetch_fallback_image` (Python `%` on a positive modulus agrees
with `Int.emod`). -/
def picsum_url (env : Env) (category : String) (width height : Nat) : String :=
  "https://picsum.photos/" ++ Nat.repr width ++ "/" ++ Nat.repr height
    ++ "?random=" ++ toString (env.py_hash category % 1000)

/-- `_fetch_fallback_image`.  Tries the `source.unsplash.com` templated URL,
validated by one HEAD request (`head_status`; `none` models the caught
exception/timeout); on a non-200 status, on exception, or when the keyword
list is empty it returns the Picsum URL (the `except` branch returns the
same Picsum URL as the fall-through).  Second component counts the network
requests issued. -/
def fetch_fallback_image (env : Env) (category : String) (width height : Nat) :
    Option String × Nat :=
  match get_keywords category with
  | [] => (some (picsum_url env category width height), 0)
  | keyword0 :: _ =>
    let keyword := replace_space_hyphen keyword0
    let fallback_url := "https://source.unsplash.com/" ++ Nat.repr width ++ "x"
      ++ Nat.repr height ++ "/?" ++ keyword
    match env.head_status with
    | some status =>
      if status = 200 then (some fallback_url, 1)
      else (some (picsum_url env category width height), 1)
    | none => (some (picsum_url env category width height), 1)

/-- `_get_local_placeholder`. -/
def get_local_placeholder (width height : Nat) : String :=
  "/static/images/placeholder-" ++ Nat.repr width ++ "x" ++ Nat.repr height ++ ".svg"

/-- The provider-chain walk of `get_image` lines 79-85: `image_url =
fetch_from_unsplash(...)`, then `if not image_url: image_url =
fetch_fallback_image(...)`, accumulating the request count. -/
def provider_chain (env : Env) (category : String) (width height : Nat) :
    Option String × Nat :=
  let u1 := fetch_from_unsplash env category width height
  if truthy u1.1 then u1
  else
    let u2 := fetch_fallback_image env category width height
    (u2.1, u1.2 + u2.2)

/-- Result of one `get_image` call: the returned URL, the cache directory
state after the call, and the number of network requests issued. -/
structure ResolveOutcome where
  url : String
  cache : Cache
  requests : Nat

/-- The tail of `get_image` (lines 86-92): given the provider chain's
`image_url`, either cache it and return it (truthy case) or return the
local placeholder without writing the cache. -/
def resolve_tail (env : Env) (cache : Cache) (cache_key : String)
    (image_url : Option String) (requests : Nat) (width height : Nat) : ResolveOutcome :=
  if truthy image_url then
    let u := image_url.getD ""
    { url := u, cache := cache_image_url env cache cache_key u, requests := requests }
  else
    { url := get_local_placeholder width height, cache := cache, requests := requests }

/-- `get_image`: cache lookup, then the provider-chain walk and the
cache-write/placeholder tail. -/
def get_image (md5hex : String → String) (env : Env) (cache : Cache)
    (category : String) (width height : Nat) : ResolveOutcome :=
  let cache_key := generate_cache_key md5hex category width height
  let cached_url := get_cached_image env cache cache_key
  if truthy cached_url then
    { url := cached_url.getD "", cache := cache, requests := 0 }
  else
    let chain := provider_chain env category width height
    resolve_tail env cache cache_key chain.1 chain.2 width height

/-- `get_image_gallery`: one `get_image` task per category (each task works
against the shared initial cache state; the tasks are independent), results
collected in input order, then the comprehension
`[img for img in results if isinstance(img, str) and img]` — in the
embedding every task yields a string, so the filter drops exactly the empty
values. -/
def get_image_gallery (md5hex : String → String) (env : Env) (cache : Cache)
    (categories : List String) (width height : Nat) : List String :=
  let results := categories.map fun c => (get_image md5hex env cache c width height).url
  results.filter fun img => img != ""

/-! ### Configuration (`app/core/config.py`) -/

/-- The `Settings` model restricted to the field the claims mention;
`unsplash_access_key : Optional[str] = None`.  The remaining fields of the
Python class are independent constants not consulted by the asset manager. -/
structure Settings where
  unsplash_access_key : Option String := none

/-- The credential `ProfessionalAssetManager.__init__` equips the manager
with, as a function of the application settings: the initializer assigns
the literal `"YOUR_UNSPLASH_ACCESS_KEY"` and does not consult `Settings`
(`main.py` constructs `ProfessionalAssetManager()` with no arguments). -/
def init_unsplash_access_key (_s : Settings) : String :=
  "YOUR_UNSPLASH_ACCESS_KEY"

/-! ### Helper lemmas -/

theorem ne_empty_of_data_ne_nil (a : String) (ha : a.data ≠ []) : a ≠ "" :=
  fun h => ha (by rw [h])

theorem data_ne_nil_append (a b : String) (ha : a.data ≠ []) : (a ++ b).data ≠ [] := by
  rw [String.data_append]
  intro h
  exact ha (List.append_eq_nil.mp h).1

theorem truthy_some_iff (s : String) : truthy (some s) = true ↔ s ≠ "" := by
  simp [truthy]

theorem truthy_true_elim (u : Option String) (h : truthy u = true) :
    ∃ s, u = some s ∧ s ≠ "" := by
  cases u with
  | none => exact absurd h (by simp [truthy])
  | some s => exact ⟨s, rfl, (truthy_some_iff s).mp h⟩

theorem dictGet_imp_mem_values (l : List (String × List String)) (k : String)
    (ks : List String) (h : dictGet l k = some ks) : ks ∈ l.map Prod.snd := by
  induction l with
  | nil => exact absurd h (by simp [dictGet])
  | cons p rest ih =>
    rw [dictGet] at h
    by_cases hk : k = p.1
    · simp only [hk, if_pos rfl] at h
      exact List.mem_cons.mpr (Or.inl (by injection h with h; rw [← h]))
    · simp only [if_neg hk] at h
      exact List.mem_cons.mpr (Or.inr (ih h))

theorem business_values_ne_nil :
    ∀ ks ∈ business_categories.map Prod.snd, ks ≠ [] := by decide

theorem get_keywords_ne_nil (category : String) : get_keywords category ≠ [] := by
  rw [get_keywords]
  cases hd : dictGet business_categories category with
  | none => simp
  | some ks =>
    simp only [Option.getD_some]
    exact business_values_ne_nil ks (dictGet_imp_mem_values _ _ _ hd)

theorem picsum_url_ne_empty (env : Env) (category : String) (width height : Nat) :
    picsum_url env category width height ≠ "" := by
  apply ne_empty_of_data_ne_nil
  apply data_ne_nil_append
  apply data_ne_nil_append
  apply data_ne_nil_append
  apply data_ne_nil_append
  apply data_ne_nil_append
  decide

theorem fetch_fallback_truthy (env : Env) (category : String) (width height : Nat) :
    truthy (fetch_fallback_image env category width height).1 = true := by
  rw [fetch_fallback_image]
  cases hk : get_keywords category with
  | nil => exact (truthy_some_iff _).mpr (picsum_url_ne_empty env category width height)
  | cons k0 rest =>
    cases hh : env.head_status with
    | none => exact (truthy_some_iff _).mpr (picsum_url_ne_empty env category width height)
    | some status =>
      by_cases hs : status = 200
      · simp only [hs, if_pos rfl]
        apply (truthy_some_iff _).mpr
        apply ne_empty_of_data_ne_nil
        apply data_ne_nil_append
        apply data_ne_nil_append
        apply data_ne_nil_append
        apply data_ne_nil_append
        apply data_ne_nil_append
        decide
      · simp only [if_neg hs]
        exact (truthy_some_iff _).mpr (picsum_url_ne_empty env category width height)

theorem fetch_fallback_requests (env : Env) (category : String) (width height : Nat) :
    (fetch_fallback_image env category width height).2 = 1 := by
  rw [fetch_fallback_image]
  cases hk : get_keywords category with
  | nil => exact absurd hk (get_keywords_ne_nil category)
  | cons k0 rest =>
    cases hh : env.head_status with
    | none => rfl
    | some status =>
      by_cases hs : status = 200
      · simp [hs]
      · simp [hs]

theorem fetch_unsplash_requests_of_truthy (env : Env) (category : String)
    (width height : Nat) (h : truthy (fetch_from_unsplash env category width height).1 = true) :
    (fetch_from_unsplash env category width height).2 = 1 := by
  rw [fetch_from_unsplash] at h ⊢
  by_cases hkey : env.unsplash_access_key = "" ∨ env.unsplash_access_key = "YOUR_UNSPLASH_ACCESS_KEY"
  · rw [if_pos hkey] at h
    exact absurd h (by simp [truthy])
  · rw [if_neg hkey] at h ⊢
    cases hr : env.search_response with
    | none => rfl
    | some resp =>
      by_cases hs : resp.status = 200
      · simp only [hs, if_pos rfl]
        cases resp.results with
        | nil => rfl
        | cons p ps => rfl
      · simp [hs]

theorem provider_chain_truthy (env : Env) (category : String) (width height : Nat) :
    truthy (provider_chain env category width height).1 = true := by
  rw [provider_chain]
  by_cases h1 : truthy (fetch_from_unsplash env category width height).1 = true
  · simp only [h1, if_pos rfl]
    exact h1
  · rw [if_neg h1]
    exact fetch_fallback_truthy env category width height

theorem provider_chain_requests_pos (env : Env) (category : String) (width height : Nat) :
    1 ≤ (provider_chain env category width height).2 := by
  simp only [provider_chain]
  by_cases h1 : truthy (fetch_from_unsplash env category width height).1 = true
  · rw [if_pos h1, fetch_unsplash_requests_of_truthy env category width height h1]
  · rw [if_neg h1]
    simp only [fetch_fallback_requests env category width height]
    omega

theorem get_image_miss (md5hex : String → String) (env : Env) (cache : Cache)
    (category : String) (width height : Nat)
    (h : truthy (get_cached_image env cache (generate_cache_key md5hex category width height)) = false) :
    get_image md5hex env cache category width height =
      resolve_tail env cache (generate_cache_key md5hex category width height)
        (provider_chain env category width height).1
        (provider_chain env category width height).2 width height := by
  rw [get_image]
  simp only [h, Bool.false_eq_true, if_false]

theorem get_image_hit (md5hex : String → String) (env : Env) (cache : Cache)
    (category : String) (width height : Nat) (u : String)
    (hu : get_cached_image env cache (generate_cache_key md5hex category width height) = some u)
    (hne : u ≠ "") :
    get_image md5hex env cache category width height = ⟨u, cache, 0⟩ := by
  rw [get_image]
  simp only [hu]
  rw [if_pos ((truthy_some_iff u).mpr hne)]
  rfl

theorem resolve_tail_truthy_eq (env : Env) (cache : Cache) (cache_key : String)
    (u : String) (requests width height : Nat) (hne : u ≠ "") :
    resolve_tail env cache cache_key (some u) requests width height =
      ⟨u, cache_image_url env cache cache_key u, requests⟩ := by
  rw [resolve_tail]
  rw [if_pos ((truthy_some_iff u).mpr hne)]
  rfl

theorem resolve_tail_falsy_eq (env : Env) (cache : Cache) (cache_key : String)
    (iu : Option String) (requests width height : Nat) (h : truthy iu = false) :
    resolve_tail env cache cache_key iu requests width height =
      ⟨get_local_placeholder width height, cache, requests⟩ := by
  rw [resolve_tail]
  simp only [h, Bool.false_eq_true, if_false]

theorem get_image_miss_normal (md5hex : String → String) (env : Env) (cache : Cache)
    (category : String) (width height : Nat)
    (h : truthy (get_cached_image env cache (generate_cache_key md5hex category width height)) = false) :
    ∃ u, (provider_chain env category width height).1 = some u ∧ u ≠ "" ∧
      get_image md5hex env cache category width height =
        ⟨u, cache_image_url env cache (generate_cache_key md5hex category width height) u,
         (provider_chain env category width height).2⟩ := by
  obtain ⟨u, hu, hne⟩ := truthy_true_elim _ (provider_chain_truthy env category width height)
  refine ⟨u, hu, hne, ?_⟩
  rw [get_image_miss md5hex env cache category width height h, hu,
      resolve_tail_truthy_eq env cache _ u _ width height hne]

theorem cache_image_url_read (env : Env) (cache : Cache) (cache_key url : String)
    (h : env.cache_write_fails = false) :
    cache_image_url env cache cache_key url cache_key = some ⟨url, env.now⟩ := by
  rw [cache_image_url]
  simp [h]

theorem get_cached_image_fresh (env : Env) (cache : Cache) (cache_key : String)
    (record : CacheRecord) (hread : env.cache_read_fails = false)
    (hrec : cache cache_key = some record)
    (hage : env.now - record.timestamp < cache_duration) :
    get_cached_image env cache cache_key = some record.url := by
  rw [get_cached_image]
  simp [hread, hrec, hage]

theorem get_cached_image_stale (env : Env) (cache : Cache) (cache_key : String)
    (record : CacheRecord) (hrec : cache cache_key = some record)
    (hage : ¬ env.now - record.timestamp < cache_duration) :
    get_cached_image env cache cache_key = none := by
  rw [get_cached_image]
  by_cases hread : env.cache_read_fails
  · simp [hread]
  · simp [hread, hrec, hage]

theorem get_image_url_ne_empty (md5hex : String → String) (env : Env) (cache : Cache)
    (category : String) (width height : Nat) :
    (get_image md5hex env cache category width height).url ≠ "" := by
  by_cases h : truthy (get_cached_image env cache (generate_cache_key md5hex category width height)) = true
  · obtain ⟨u, hu, hne⟩ := truthy_true_elim _ h
    rw [get_image_hit md5hex env cache category width height u hu hne]
    exact hne
  · obtain ⟨u, _, hne, heq⟩ := get_image_miss_normal md5hex env cache category width height
      (Bool.not_eq_true _ ▸ h)
    rw [heq]
    exact hne

theorem key_string_data (c : String) (w h : Nat) :
    (key_string c w h).data
      = c.data ++ '_' :: ((Nat.repr w).data ++ '_' :: (Nat.repr h).data) := by
  have h1 : ("_" : String).data = ['_'] := rfl
  simp [key_string, String.data_append, h1]

theorem key_string_inj (c c' : String) (w h w' h' : Nat)
    (he : key_string c w h = key_string c' w' h') : c = c' ∧ w = w' ∧ h = h' := by
  have hd := congrArg String.data he
  rw [key_string_data, key_string_data] at hd
  have p1 := parseKeyData_eq c.data (Nat.repr w).data (Nat.repr h).data
    (underscore_not_mem_repr w) (underscore_not_mem_repr h)
  have p2 := parseKeyData_eq c'.data (Nat.repr w').data (Nat.repr h').data
    (underscore_not_mem_repr w') (underscore_not_mem_repr h')
  rw [hd, p2] at p1
  have hc : c'.data = c.data := congrArg (fun t => t.1) (Option.some.inj p1)
  have hw : (Nat.repr w').data = (Nat.repr w).data :=
    congrArg (fun t => t.2.1) (Option.some.inj p1)
  have hh : (Nat.repr h').data = (Nat.repr h).data :=
    congrArg (fun t => t.2.2) (Option.some.inj p1)
  exact ⟨String.ext hc.symm, (repr_data_injective _ _ hw).symm,
    (repr_data_injective _ _ hh).symm⟩

theorem fetch_unsplash_skip (env : Env) (category : String) (width height : Nat)
    (h : env.unsplash_access_key = "" ∨ env.unsplash_access_key = "YOUR_UNSPLASH_ACCESS_KEY") :
    fetch_from_unsplash env category width height = (none, 0) := by
  rw [fetch_from_unsplash, if_pos h]

theorem provider_chain_of_skip (env : Env) (category : String) (width height : Nat)
    (h : env.unsplash_access_key = "" ∨ env.unsplash_access_key = "YOUR_UNSPLASH_ACCESS_KEY") :
    provider_chain env category width height
      = ((fetch_fallback_image env category width height).1, 1) := by
  simp only [provider_chain, fetch_unsplash_skip env category width height h]
  rw [if_neg (by simp [truthy])]
  simp [fetch_fallback_requests env category width height]

theorem fetch_fallback_head200 (env : Env) (category kw : String) (rest : List String)
    (width height : Nat) (hkw : get_keywords category = kw :: rest)
    (hhead : env.head_status = some 200) :
    fetch_fallback_image env category width height
      = (some ("https://source.unsplash.com/" ++ Nat.repr width ++ "x"
          ++ Nat.repr height ++ "/?" ++ replace_space_hyphen kw), 1) := by
  rw [fetch_fallback_image, hkw, hhead]
  simp

theorem ne_of_data_idx8 (s t : String) (c1 c2 : Char) (h1 : s.data[8]? = some c1)
    (h2 : t.data[8]? = some c2) (hne : c1 ≠ c2) : s ≠ t := by
  intro h
  rw [h, h2] at h1
  exact hne (Option.some.inj h1).symm

theorem source_url_idx8 (x : String) :
    (("https://source.unsplash.com/" ++ x) : String).data[8]? = some 's' := by
  rw [String.data_append]
  rw [List.getElem?_append]
  rw [if_pos (by decide)]
  decide

theorem picsum_url_idx8 (env : Env) (category : String) (width height : Nat) :
    (picsum_url env category width height).data[8]? = some 'p' := by
  rw [picsum_url]
  simp only [String.data_append, List.append_assoc]
  rw [List.getElem?_append]
  rw [if_pos (by decide)]
  decide

/-! ### Concrete inputs used by witnesses -/

/-- An environment in which everything external fails: no credential beyond
the placeholder, the search request and the HEAD check raise, and both
cache read and write raise. -/
def env_all_fail : Env :=
  ⟨fun _ => 0, "YOUR_UNSPLASH_ACCESS_KEY", none, none, true, true, 0⟩

/-- The empty cache directory. -/
def empty_cache : Cache := fun _ => none

/-! ### Claims -/

/-- C1: for every category string and positive width and height, `get_image`
returns a non-empty URL string; it is a total function of its inputs in
which every internal failure (provider error or timeout, cache read error,
cache write error) is a value of the environment absorbed inside the call,
so no error crosses its boundary, and at worst the result is the local
placeholder reference. -/
theorem claim_C1_resolve_total_nonempty (md5hex : String → String) (env : Env)
    (cache : Cache) (category : String) (width height : Nat)
    (hw : 0 < width) (hh : 0 < height) :
    (get_image md5hex env cache category width height).url ≠ "" :=
  get_image_url_ne_empty md5hex env cache category width height

/-- Witness for C1 at a concrete input: both dimension hypotheses hold at
(1920, 1080) and the conclusion is obtained from the theorem, in the
environment where every external call fails. -/
theorem claim_C1_witness :
    (0 : Nat) < 1920 ∧ (0 : Nat) < 1080 ∧
    (get_image (fun _ => "d41d8cd9") env_all_fail empty_cache "business-team" 1920 1080).url ≠ "" :=
  ⟨by decide, by decide,
    claim_C1_resolve_total_nonempty (fun _ => "d41d8cd9") env_all_fail empty_cache
      "business-team" 1920 1080 (by decide) (by decide)⟩

/-- C5: the category-to-keywords lookup is total and always yields a
non-empty list: a category present in the registry yields that category's
keyword list, and an unknown category yields the one-element list holding
the category string itself. -/
theorem claim_C5_keywords_total (category : String) :
    get_keywords category ≠ [] ∧
    (∀ ks, dictGet business_categories category = some ks → get_keywords category = ks) ∧
    (dictGet business_categories category = none → get_keywords category = [category]) := by
  refine ⟨get_keywords_ne_nil category, ?_, ?_⟩
  · intro ks h
    rw [get_keywords, h]
    rfl
  · intro h
    rw [get_keywords, h]
    rfl

/-- Witness for C5: a registered category yields its registry entry and an
unknown category yields the singleton of itself. -/
theorem claim_C5_witness :
    get_keywords "business-team" = ["business", "team", "office", "professional"] ∧
    get_keywords "nonexistent-category" = ["nonexistent-category"] :=
  ⟨(claim_C5_keywords_total "business-team").2.1 _ (by decide),
   (claim_C5_keywords_total "nonexistent-category").2.2 (by decide)⟩

/-- C6: the fingerprint is deterministic (a pure function of the triple);
the digest input `f"{category}_{width}_{height}"` collides only on exact
triple match, hence two fingerprints agree only when the triples match or
the underlying digest itself collides on two distinct inputs; and when the
digest function returns 32-character strings (as `md5().hexdigest()` does)
the fingerprint has that fixed length. -/
theorem claim_C6_fingerprint_injective (md5hex : String → String) (c c' : String)
    (w h w' h' : Nat) :
    generate_cache_key md5hex c w h = generate_cache_key md5hex c w h ∧
    (key_string c w h = key_string c' w' h' → c = c' ∧ w = w' ∧ h = h') ∧
    (generate_cache_key md5hex c w h = generate_cache_key md5hex c' w' h' →
      (c = c' ∧ w = w' ∧ h = h') ∨
      (key_string c w h ≠ key_string c' w' h' ∧
        md5hex (key_string c w h) = md5hex (key_string c' w' h'))) ∧
    ((∀ s, (md5hex s).length = 32) → (generate_cache_key md5hex c w h).length = 32) := by
  refine ⟨rfl, key_string_inj c c' w h w' h', ?_, ?_⟩
  · intro hg
    by_cases hk : key_string c w h = key_string c' w' h'
    · exact Or.inl (key_string_inj c c' w h w' h' hk)
    · exact Or.inr ⟨hk, hg⟩
  · intro h32
    exact h32 _

/-- Witness for C6: the digest-input equality hypothesis holds between the
triple ("business-team", 1920, 1080) and itself, and the conclusion follows
from the theorem. -/
theorem claim_C6_witness :
    ("business-team" : String) = "business-team" ∧ (1920 : Nat) = 1920 ∧ (1080 : Nat) = 1080 :=
  (claim_C6_fingerprint_injective (fun _ => "") "business-team" "business-team"
    1920 1080 1920 1080).2.1 rfl

/-- C8: `get_image_gallery` resolves each category once, in input order; in
the embedding no resolution raises and (by C1's argument) none is empty, so
the comprehension filter drops nothing: the output is exactly the ordered
list of per-category resolve results (placeholder references included), and
its length is the input length, in particular at most the input length. -/
theorem claim_C8_gallery_order (md5hex : String → String) (env : Env) (cache : Cache)
    (categories : List String) (width height : Nat) :
    get_image_gallery md5hex env cache categories width height
      = categories.map (fun c => (get_image md5hex env cache c width height).url) ∧
    (get_image_gallery md5hex env cache categories width height).length
      = categories.length ∧
    (get_image_gallery md5hex env cache categories width height).length
      ≤ categories.length := by
  have heq : get_image_gallery md5hex env cache categories width height
      = categories.map (fun c => (get_image md5hex env cache c width height).url) := by
    rw [get_image_gallery]
    apply List.filter_eq_self.mpr
    intro img hmem
    obtain ⟨c, _, hc⟩ := List.mem_map.mp hmem
    rw [← hc]
    exact bne_iff_ne.mpr (get_image_url_ne_empty md5hex env cache c width height)
  refine ⟨heq, ?_, ?_⟩
  · rw [heq, List.length_map]
  · rw [heq, List.length_map]

/-- C10: the terminal fallback fetch is total and never absent: whatever the
environment, it returns a truthy URL, and whenever the HEAD reachability
check raises or returns a non-200 status the result is exactly the Picsum
URL, whose `random` seed `hash(category) % 1000` lies in [0, 1000).
Consequently the provider chain of `get_image` always yields a truthy URL,
and on a cache miss the resolver returns the chain's URL and writes it —
the local placeholder branch is never reached by ordinary exhaustion of the
chain. -/
theorem claim_C10_fallback_total (md5hex : String → String) (env : Env) (cache : Cache)
    (category : String) (width height : Nat) :
    truthy (fetch_fallback_image env category width height).1 = true ∧
    ((env.head_status = none ∨ ∃ st, env.head_status = some st ∧ st ≠ 200) →
      (fetch_fallback_image env category width height).1
        = some (picsum_url env category width height)) ∧
    (0 ≤ env.py_hash category % 1000 ∧ env.py_hash category % 1000 < 1000) ∧
    truthy (provider_chain env category width height).1 = true ∧
    (truthy (get_cached_image env cache (generate_cache_key md5hex category width height)) = false →
      ∃ u, (provider_chain env category width height).1 = some u ∧
        get_image md5hex env cache category width height
          = ⟨u, cache_image_url env cache (generate_cache_key md5hex category width height) u,
             (provider_chain env category width height).2⟩) := by
  refine ⟨fetch_fallback_truthy env category width height, ?_, ?_, ?_, ?_⟩
  · intro hcase
    rw [fetch_fallback_image]
    cases hk : get_keywords category with
    | nil => rfl
    | cons k0 rest =>
      rcases hcase with hnone | ⟨st, hst, hne⟩
      · rw [hnone]
      · rw [hst]
        simp only [if_neg hne]
  · exact ⟨Int.emod_nonneg _ (by decide), Int.emod_lt_of_pos _ (by decide)⟩
  · exact provider_chain_truthy env category width height
  · intro hmiss
    obtain ⟨u, hu, _, heq⟩ := get_image_miss_normal md5hex env cache category width height hmiss
    exact ⟨u, hu, heq⟩

/-- Witness for C10: in the environment where the HEAD check raises, the
fallback fetch returns the Picsum URL, and on the empty cache the resolver
returns the chain's URL — hypotheses discharged at concrete inputs. -/
theorem claim_C10_witness :
    (fetch_fallback_image env_all_fail "workspace" 400 300).1
      = some (picsum_url env_all_fail "workspace" 400 300) ∧
    (∃ u, (provider_chain env_all_fail "workspace" 400 300).1 = some u ∧
      get_image (fun _ => "d41d8cd9") env_all_fail empty_cache "workspace" 400 300
        = ⟨u, cache_image_url env_all_fail empty_cache
              (generate_cache_key (fun _ => "d41d8cd9") "workspace" 400 300) u,
           (provider_chain env_all_fail "workspace" 400 300).2⟩) :=
  ⟨(claim_C10_fallback_total (fun _ => "d41d8cd9") env_all_fail empty_cache
      "workspace" 400 300).2.1 (Or.inl rfl),
   (claim_C10_fallback_total (fun _ => "d41d8cd9") env_all_fail empty_cache
      "workspace" 400 300).2.2.2.2 rfl⟩

/-- C3: the resolver's final fall-through (lines 86-92 of `get_image`,
embedded as `resolve_tail`): whenever the provider-chain walk hands it a
falsy result, the call returns the local placeholder reference — of the
exact form `/static/images/placeholder-{width}x{height}.svg` — and leaves
the cache unchanged, writing no record for the fingerprint; consequently,
a subsequent call on the unchanged cache that misses for this triple runs
the provider chain again (at least one fresh network request) instead of
being pinned to the placeholder.  (By C10 the chain itself never produces
a falsy result, so this branch is defensive dead code in ordinary runs.) -/
theorem claim_C3_placeholder_not_cached (md5hex : String → String) (env : Env)
    (cache : Cache) (ckey category : String) (width height requests : Nat)
    (iu : Option String) (hfalsy : truthy iu = false) :
    resolve_tail env cache ckey iu requests width height
      = ⟨get_local_placeholder width height, cache, requests⟩ ∧
    get_local_placeholder width height
      = "/static/images/placeholder-" ++ Nat.repr width ++ "x" ++ Nat.repr height ++ ".svg" ∧
    (∀ env2, truthy (get_cached_image env2 cache
        (generate_cache_key md5hex category width height)) = false →
      (get_image md5hex env2 cache category width height).requests
        = (provider_chain env2 category width height).2 ∧
      1 ≤ (get_image md5hex env2 cache category width height).requests) := by
  refine ⟨resolve_tail_falsy_eq env cache ckey iu requests width height hfalsy, rfl, ?_⟩
  intro env2 hmiss
  obtain ⟨u, _, _, heq⟩ := get_image_miss_normal md5hex env2 cache category width height hmiss
  rw [heq]
  exact ⟨rfl, provider_chain_requests_pos env2 category width height⟩

/-- Witness for C3: the falsy-chain hypothesis holds at `none`, and the
conclusion is obtained from the theorem at concrete inputs. -/
theorem claim_C3_witness :
    resolve_tail env_all_fail empty_cache "k" none 1 800 600
      = ⟨get_local_placeholder 800 600, empty_cache, 1⟩ ∧
    get_local_placeholder 800 600 = "/static/images/placeholder-800x600.svg" :=
  ⟨(claim_C3_placeholder_not_cached (fun _ => "d") env_all_fail empty_cache "k"
      "workspace" 800 600 1 none rfl).1,
   by decide⟩

/-- C4: on a cache miss, when provider 1 yields a falsy result and the
provider-2 HEAD reachability check returns status 200, the resolver
returns provider 2's templated URL
`https://source.unsplash.com/{width}x{height}/?{primary keyword, spaces
replaced by hyphens}`; provider 3 is not reached: the fallback fetch's
value is provider 2's URL (with exactly the one HEAD request issued) and
the returned URL is not the provider-3 Picsum URL. -/
theorem claim_C4_provider2_url (md5hex : String → String) (env : Env) (cache : Cache)
    (category kw : String) (rest : List String) (width height : Nat)
    (hmiss : truthy (get_cached_image env cache
        (generate_cache_key md5hex category width height)) = false)
    (hu1 : truthy (fetch_from_unsplash env category width height).1 = false)
    (hhead : env.head_status = some 200)
    (hkw : get_keywords category = kw :: rest) :
    (get_image md5hex env cache category width height).url
      = "https://source.unsplash.com/" ++ Nat.repr width ++ "x" ++ Nat.repr height
        ++ "/?" ++ replace_space_hyphen kw ∧
    fetch_fallback_image env category width height
      = (some ("https://source.unsplash.com/" ++ Nat.repr width ++ "x" ++ Nat.repr height
          ++ "/?" ++ replace_space_hyphen kw), 1) ∧
    (get_image md5hex env cache category width height).url
      ≠ picsum_url env category width height := by
  have hfb := fetch_fallback_head200 env category kw rest width height hkw hhead
  have hchain : (provider_chain env category width height).1
      = some ("https://source.unsplash.com/" ++ Nat.repr width ++ "x" ++ Nat.repr height
          ++ "/?" ++ replace_space_hyphen kw) := by
    simp only [provider_chain, hmiss]
    rw [if_neg (by rw [hu1]; simp)]
    rw [hfb]
  obtain ⟨u, hu, hne, heq⟩ := get_image_miss_normal md5hex env cache category width height hmiss
  have hueq : u = "https://source.unsplash.com/" ++ Nat.repr width ++ "x" ++ Nat.repr height
      ++ "/?" ++ replace_space_hyphen kw := by
    have := hu.symm.trans hchain
    exact Option.some.inj this
  have hurl : (get_image md5hex env cache category width height).url
      = "https://source.unsplash.com/" ++ Nat.repr width ++ "x" ++ Nat.repr height
        ++ "/?" ++ replace_space_hyphen kw := by
    rw [heq, ← hueq]
  refine ⟨hurl, hfb, ?_⟩
  rw [hurl]
  apply ne_of_data_idx8 _ _ 's' 'p' _ (picsum_url_idx8 env category width height) (by decide)
  have hassoc : "https://source.unsplash.com/" ++ Nat.repr width ++ "x" ++ Nat.repr height
      ++ "/?" ++ replace_space_hyphen kw
      = "https://source.unsplash.com/" ++ (Nat.repr width ++ "x" ++ Nat.repr height
        ++ "/?" ++ replace_space_hyphen kw) := by
    simp [String.append_assoc]
  rw [hassoc]
  exact source_url_idx8 _

/-- Witness for C4: all four hypotheses discharged at a concrete input — an
empty cache, the placeholder credential (provider 1 falsy without a
request), HEAD status 200 for the "workspace" category. -/
theorem claim_C4_witness :
    (get_image (fun _ => "d") ⟨fun _ => 0, "YOUR_UNSPLASH_ACCESS_KEY", none, some 200, false, false, 0⟩
        empty_cache "workspace" 640 480).url
      = "https://source.unsplash.com/640x480/?workspace" :=
  ((claim_C4_provider2_url (fun _ => "d")
      ⟨fun _ => 0, "YOUR_UNSPLASH_ACCESS_KEY", none, some 200, false, false, 0⟩
      empty_cache "workspace" "workspace" ["office", "desk", "computer"] 640 480
      rfl rfl rfl (by decide)).1).trans (by decide)

/-- C9 counterexample: the claim says the Search Provider's credential is
supplied via configuration, but the manager's initializer assigns the
literal placeholder and never consults `Settings.unsplash_access_key`: at
the concrete configuration holding the key "configured-real-key", the
credential the manager is initialised with differs from the configured
one. -/
theorem claim_C9_counterexample :
    init_unsplash_access_key ⟨some "configured-real-key"⟩ ≠ "configured-real-key" ∧
    (⟨some "configured-real-key"⟩ : Settings).unsplash_access_key
      = some "configured-real-key" :=
  ⟨by decide, rfl⟩

/-- C9 as amended: the manager's credential is the hardcoded placeholder
constant, regardless of configuration (the `Settings.unsplash_access_key`
field exists but is not consumed); whenever the credential is absent
(empty) or placeholder-valued, the Search Provider returns absent without
making any network call — a recognized non-error skip condition. -/
theorem claim_C9_credential_skip (s : Settings) (env : Env) (category : String)
    (width height : Nat) :
    init_unsplash_access_key s = "YOUR_UNSPLASH_ACCESS_KEY" ∧
    (env.unsplash_access_key = "" ∨ env.unsplash_access_key = "YOUR_UNSPLASH_ACCESS_KEY" →
      fetch_from_unsplash env category width height = (none, 0)) :=
  ⟨rfl, fun h => fetch_unsplash_skip env category width height h⟩

/-- Witness for C9's amended theorem: the skip hypothesis holds in the
environment carrying the placeholder credential, and the provider returns
absent with zero network requests. -/
theorem claim_C9_witness :
    fetch_from_unsplash env_all_fail "business-team" 800 600 = (none, 0) :=
  (claim_C9_credential_skip ⟨none⟩ env_all_fail "business-team" 800 600).2 (Or.inr rfl)

/-- C2: for a fixed (category, width, height): (1) a stored record under
the triple's fingerprint is reused exactly when its age is strictly below
the 24-hour TTL; (2) after a first resolving call (cache miss, successful
write, credential as initialised — the hardcoded placeholder), a second
call strictly within the TTL window returns the identical URL, issues no
network request, and the two calls together issue at most one network
request; (3) when the second call happens 24 hours or later after the
first, the record is not reused and a fresh provider-chain attempt (at
least one network request) is made. -/
theorem claim_C2_ttl_idempotent (md5hex : String → String) (env1 env2 : Env)
    (cache : Cache) (category : String) (width height : Nat) :
    (∀ record : CacheRecord, env2.cache_read_fails = false →
      cache (generate_cache_key md5hex category width height) = some record →
      get_cached_image env2 cache (generate_cache_key md5hex category width height)
        = if env2.now - record.timestamp < cache_duration then some record.url else none) ∧
    (truthy (get_cached_image env1 cache
        (generate_cache_key md5hex category width height)) = false →
      env1.cache_write_fails = false →
      env2.cache_read_fails = false →
      env1.unsplash_access_key = "YOUR_UNSPLASH_ACCESS_KEY" →
      env2.now - env1.now < cache_duration →
      (get_image md5hex env2 (get_image md5hex env1 cache category width height).cache
          category width height).url
        = (get_image md5hex env1 cache category width height).url ∧
      (get_image md5hex env2 (get_image md5hex env1 cache category width height).cache
          category width height).requests = 0 ∧
      (get_image md5hex env1 cache category width height).requests
        + (get_image md5hex env2 (get_image md5hex env1 cache category width height).cache
            category width height).requests ≤ 1) ∧
    (truthy (get_cached_image env1 cache
        (generate_cache_key md5hex category width height)) = false →
      env1.cache_write_fails = false →
      ¬ env2.now - env1.now < cache_duration →
      (get_image md5hex env2 (get_image md5hex env1 cache category width height).cache
          category width height).requests
        = (provider_chain env2 category width height).2 ∧
      1 ≤ (get_image md5hex env2 (get_image md5hex env1 cache category width height).cache
            category width height).requests) := by
  refine ⟨?_, ?_, ?_⟩
  · intro record hread hrec
    rw [get_cached_image]
    simp [hread, hrec]
  · intro hmiss hw1 hr2 hkey1 hage
    obtain ⟨u, hu, hne, heq⟩ :=
      get_image_miss_normal md5hex env1 cache category width height hmiss
    simp only [heq]
    have hrec : cache_image_url env1 cache
        (generate_cache_key md5hex category width height) u
        (generate_cache_key md5hex category width height)
        = some ⟨u, env1.now⟩ :=
      cache_image_url_read env1 cache _ u hw1
    have hcached : get_cached_image env2
        (cache_image_url env1 cache (generate_cache_key md5hex category width height) u)
        (generate_cache_key md5hex category width height) = some u :=
      get_cached_image_fresh env2 _ _ ⟨u, env1.now⟩ hr2 hrec hage
    have hr2eq := get_image_hit md5hex env2 _ category width height u hcached hne
    rw [hr2eq]
    refine ⟨rfl, rfl, ?_⟩
    rw [provider_chain_of_skip env1 category width height (Or.inr hkey1)]
    simp
  · intro hmiss hw1 hage
    obtain ⟨u, hu, hne, heq⟩ :=
      get_image_miss_normal md5hex env1 cache category width height hmiss
    simp only [heq]
    have hrec : cache_image_url env1 cache
        (generate_cache_key md5hex category width height) u
        (generate_cache_key md5hex category width height)
        = some ⟨u, env1.now⟩ :=
      cache_image_url_read env1 cache _ u hw1
    have hstale : get_cached_image env2
        (cache_image_url env1 cache (generate_cache_key md5hex category width height) u)
        (generate_cache_key md5hex category width height) = none :=
      get_cached_image_stale env2 _ _ ⟨u, env1.now⟩ hrec hage
    obtain ⟨u2, hu2, hne2, heq2⟩ :=
      get_image_miss_normal md5hex env2 _ category width height (by rw [hstale]; rfl)
    rw [heq2]
    exact ⟨rfl, provider_chain_requests_pos env2 category width height⟩

/-- Witness for C2: both timing scenarios instantiated concretely — first
call at time 0 against the empty cache with the initialised placeholder
credential, second call at time 100 (within the TTL): identical URL, zero
further requests, at most one request in total. -/
theorem claim_C2_witness :
    (get_image (fun _ => "d41d8cd9")
        ⟨fun _ => 0, "YOUR_UNSPLASH_ACCESS_KEY", none, none, false, false, 100⟩
        (get_image (fun _ => "d41d8cd9")
          ⟨fun _ => 0, "YOUR_UNSPLASH_ACCESS_KEY", none, none, false, false, 0⟩
          empty_cache "workspace" 400 300).cache "workspace" 400 300).url
      = (get_image (fun _ => "d41d8cd9")
          ⟨fun _ => 0, "YOUR_UNSPLASH_ACCESS_KEY", none, none, false, false, 0⟩
          empty_cache "workspace" 400 300).url ∧
    (get_image (fun _ => "d41d8cd9")
        ⟨fun _ => 0, "YOUR_UNSPLASH_ACCESS_KEY", none, none, false, false, 100⟩
        (get_image (fun _ => "d41d8cd9")
          ⟨fun _ => 0, "YOUR_UNSPLASH_ACCESS_KEY", none, none, false, false, 0⟩
          empty_cache "workspace" 400 300).cache "workspace" 400 300).requests = 0 ∧
    (get_image (fun _ => "d41d8cd9")
        ⟨fun _ => 0, "YOUR_UNSPLASH_ACCESS_KEY", none, none, false, false, 0⟩
        empty_cache "workspace" 400 300).requests
      + (get_image (fun _ => "d41d8cd9")
          ⟨fun _ => 0, "YOUR_UNSPLASH_ACCESS_KEY", none, none, false, false, 100⟩
          (get_image (fun _ => "d41d8cd9")
            ⟨fun _ => 0, "YOUR_UNSPLASH_ACCESS_KEY", none, none, false, false, 0⟩
            empty_cache "workspace" 400 300).cache "workspace" 400 300).requests ≤ 1 :=
  (claim_C2_ttl_idempotent (fun _ => "d41d8cd9")
      ⟨fun _ => 0, "YOUR_UNSPLASH_ACCESS_KEY", none, none, false, false, 0⟩
      ⟨fun _ => 0, "YOUR_UNSPLASH_ACCESS_KEY", none, none, false, false, 100⟩
      empty_cache "workspace" 400 300).2.1 rfl rfl rfl rfl (by decide)

/-- C7: with provider 1 configured (a real credential) and its search
returning status 200 with top-result raw asset URL
`https://img.example/photo123/raw`, a cache-missing
`resolve("business-team", 1920, 1080)` returns the composed URL
`https://img.example/photo123/raw&w=1920&h=1080&fit=crop&crop=center` and
writes a cache record holding exactly that URL (stamped with the current
time) under the fingerprint of ("business-team", 1920, 1080). -/
theorem claim_C7_concrete_scenario (md5hex : String → String) (ph : String → Int)
    (hs : Option Nat) (rf : Bool) (now : Int) (cache : Cache)
    (hmiss : truthy (get_cached_image
        ⟨ph, "configured-key", some ⟨200, [⟨"https://img.example/photo123/raw"⟩]⟩,
         hs, rf, false, now⟩ cache
        (generate_cache_key md5hex "business-team" 1920 1080)) = false) :
    (get_image md5hex
        ⟨ph, "configured-key", some ⟨200, [⟨"https://img.example/photo123/raw"⟩]⟩,
         hs, rf, false, now⟩ cache "business-team" 1920 1080).url
      = "https://img.example/photo123/raw&w=1920&h=1080&fit=crop&crop=center" ∧
    (get_image md5hex
        ⟨ph, "configured-key", some ⟨200, [⟨"https://img.example/photo123/raw"⟩]⟩,
         hs, rf, false, now⟩ cache "business-team" 1920 1080).cache
        (generate_cache_key md5hex "business-team" 1920 1080)
      = some ⟨"https://img.example/photo123/raw&w=1920&h=1080&fit=crop&crop=center", now⟩ := by
  have hu1 : fetch_from_unsplash
      ⟨ph, "configured-key", some ⟨200, [⟨"https://img.example/photo123/raw"⟩]⟩,
       hs, rf, false, now⟩ "business-team" 1920 1080
      = (some "https://img.example/photo123/raw&w=1920&h=1080&fit=crop&crop=center", 1) := by
    rfl
  have hchain : provider_chain
      ⟨ph, "configured-key", some ⟨200, [⟨"https://img.example/photo123/raw"⟩]⟩,
       hs, rf, false, now⟩ "business-team" 1920 1080
      = (some "https://img.example/photo123/raw&w=1920&h=1080&fit=crop&crop=center", 1) := by
    simp only [provider_chain, hu1]
    rw [if_pos (by decide)]
  obtain ⟨u, hu, hne, heq⟩ := get_image_miss_normal md5hex
    ⟨ph, "configured-key", some ⟨200, [⟨"https://img.example/photo123/raw"⟩]⟩,
     hs, rf, false, now⟩ cache "business-team" 1920 1080 hmiss
  have hueq : u = "https://img.example/photo123/raw&w=1920&h=1080&fit=crop&crop=center" := by
    have h2 := hu.symm.trans (congrArg Prod.fst hchain)
    exact Option.some.inj h2
  constructor
  · rw [heq, hueq]
  · have hwrt := cache_image_url_read
      ⟨ph, "configured-key", some ⟨200, [⟨"https://img.example/photo123/raw"⟩]⟩,
       hs, rf, false, now⟩
      cache (generate_cache_key md5hex "business-team" 1920 1080)
      "https://img.example/photo123/raw&w=1920&h=1080&fit=crop&crop=center" rfl
    rw [heq, hueq]
    exact hwrt

/-- Witness for C7: the cache-miss hypothesis holds on the empty cache, and
the theorem yields the composed URL at the concrete environment. -/
theorem claim_C7_witness :
    (get_image (fun _ => "d41d8cd9")
        ⟨fun _ => 0, "configured-key",
         some ⟨200, [⟨"https://img.example/photo123/raw"⟩]⟩, none, false, false, 0⟩
        empty_cache "business-team" 1920 1080).url
      = "https://img.example/photo123/raw&w=1920&h=1080&fit=crop&crop=center" :=
  (claim_C7_concrete_scenario (fun _ => "d41d8cd9") (fun _ => 0) none false 0
    empty_cache rfl).1

end HstAssets
